import Mathlib

/-!
Formal model of the kroki repository: the converter `gpx2lv95.py` and the
parallel implementation `gpx2kroki/gpx_to_swiss_kroki.py`.  GPX coordinate and
elevation values are embedded as rationals (the Python code manipulates them
only by arithmetic, comparison and record plumbing); the trigonometric azimuth
computations are embedded over the reals.  External effects are made explicit:
the Swisstopo height lookup becomes a function argument describing the outcome
of each HTTP call, logging becomes a returned flag, and the pyproj coordinate
transformer and geodesic solver used by `gpx2lv95.py` become function
parameters.
-/

/-- A GPX point element (`trkpt`, `rtept` or `wpt`): its `lat`/`lon` attributes
(`none` when the attribute is absent from the element) and the parsed `ele`
child (`none` when the child is absent or its text is empty; both
implementations read it with the same `float(el.text) if el is not None and
el.text else None` expression). -/
structure PtElem where
  lat : Option ℚ
  lon : Option ℚ
  ele : Option ℚ
  deriving DecidableEq

/-- An already-XML-parsed GPX document: the three point-element categories in
document order, i.e. the results of `root.findall` for `.//gpx:trkpt`,
`.//gpx:rtept` and `.//gpx:wpt`. -/
structure GpxDoc where
  trkpts : List PtElem
  rtepts : List PtElem
  wpts : List PtElem
  deriving DecidableEq

/-- A raw point as both parsers produce it: `(latitude, longitude, elevation)`. -/
abbrev RawPoint := ℚ × ℚ × Option ℚ

/-- Outcome of one call to the Swisstopo height endpoint for given coordinates:
`success h` is an HTTP 2xx reply whose JSON body has a numeric `height` field
`h`; `missingField` is a 2xx reply whose JSON body lacks the `height` field;
`failure` is every other failure (timeout, non-2xx status, unreachable host,
malformed body). -/
inductive LookupOutcome where
  | success (h : ℚ) : LookupOutcome
  | missingField : LookupOutcome
  | failure : LookupOutcome
  deriving DecidableEq

namespace Lv95

/-- The failures that abort a `gpx2lv95.py` run: `MalformedInput` stands for the
`TypeError` raised by `float(elem.get("lat"))` / `float(elem.get("lon"))` in
`_extract` (lines 102-103) when the attribute is absent, `NoPointsFound` for the
`ValueError("No track/route points found in the GPX file.")` raised in `main`
(line 253) when the parser returned an empty list. -/
inductive Err where
  | MalformedInput : Err
  | NoPointsFound : Err
  deriving DecidableEq

/-- Embeds `_extract` (gpx2lv95.py lines 101-106): reading a missing `lat` or
`lon` attribute raises (`float(None)` is a `TypeError`); otherwise the triple
`(lat, lon, ele)` is produced. -/
def extract (p : PtElem) : Except Err RawPoint :=
  match p.lat, p.lon with
  | some la, some lo => .ok (la, lo, p.ele)
  | _, _ => .error .MalformedInput

/-- The list comprehension `[_extract(pt) for pt in elems]` of `parse_gpx`
(lines 109-116): it evaluates `_extract` left to right and the first raised
exception aborts the whole comprehension. -/
def extractAll : List PtElem → Except Err (List RawPoint)
  | [] => .ok []
  | p :: rest =>
    match extract p with
    | .error e => .error e
    | .ok q =>
      match extractAll rest with
      | .error e => .error e
      | .ok qs => .ok (q :: qs)

/-- Embeds `parse_gpx` (gpx2lv95.py lines 88-117): the element list is
`findall(trkpt) or findall(rtept) or findall(wpt)` — Python `or` on lists picks
the first non-empty operand — and every element of that list goes through
`_extract`. -/
def parse_gpx (doc : GpxDoc) : Except Err (List RawPoint) :=
  extractAll
    (if doc.trkpts.isEmpty then
      (if doc.rtepts.isEmpty then doc.wpts else doc.rtepts)
    else doc.trkpts)

/-- Embeds `fetch_elevation` (gpx2lv95.py lines 53-85).  The extra argument
`api` gives the outcome of the Swisstopo call for the LV95 coordinates that
would be put in the request URL; the second component of the result records
whether `logger.warning` fired (it fires exactly in the `except` branch, which
catches the timeout/status/JSON failures as well as the `KeyError` of
`data["height"]`). -/
def fetch_elevation (ele : Option ℚ) (e n : ℝ) (use_height_api : Bool)
    (api : ℝ → ℝ → LookupOutcome) : ℚ × Bool :=
  match ele with
  | some v => (v, false)
  | none =>
    if use_height_api then
      match api e n with
      | .success h => (h, false)
      | .missingField => (0, true)
      | .failure => (0, true)
    else (0, false)

/-- One dict of the profile list built by `build_profile` (gpx2lv95.py lines
147-156).  `ele` keeps the `Option` type of the dict slot: `format_profile`
checks it against `None`, although `build_profile` always stores the resolved
float. -/
structure ProfileEntry where
  e : ℝ
  n : ℝ
  ele : Option ℚ
  dist : ℝ
  azimuth : ℝ
  delta_ele : ℚ

/-- The loop of `build_profile` (gpx2lv95.py lines 132-158), with the previous
point's `(lat, lon, resolved elevation)` made explicit.  `transform` stands for
`LV95_TRANSFORMER.transform(lon, lat)` and `geodInv` for
`GEOD.inv(lon1, lat1, lon2, lat2)` restricted to the `(azimuth, distance)`
components the code uses — both are pyproj library calls, kept as parameters.
For the first point `dist`, `azim` and `d_ele` keep their initial `0.0`. -/
def build_profile_go (transform : ℚ → ℚ → ℝ × ℝ) (geodInv : ℚ → ℚ → ℚ → ℚ → ℝ × ℝ)
    (api : ℝ → ℝ → LookupOutcome) (use_height_api : Bool) :
    Option (ℚ × ℚ × ℚ) → List RawPoint → List ProfileEntry
  | _, [] => []
  | none, q :: rest =>
    let en := transform q.2.1 q.1
    let resolved := (fetch_elevation q.2.2 en.1 en.2 use_height_api api).1
    { e := en.1, n := en.2, ele := some resolved, dist := 0, azimuth := 0, delta_ele := 0 } ::
      build_profile_go transform geodInv api use_height_api (some (q.1, q.2.1, resolved)) rest
  | some prev, q :: rest =>
    let en := transform q.2.1 q.1
    let resolved := (fetch_elevation q.2.2 en.1 en.2 use_height_api api).1
    let ad := geodInv prev.2.1 prev.1 q.2.1 q.1
    { e := en.1, n := en.2, ele := some resolved, dist := ad.2, azimuth := ad.1,
        delta_ele := resolved - prev.2.2 } ::
      build_profile_go transform geodInv api use_height_api (some (q.1, q.2.1, resolved)) rest

/-- Embeds `build_profile` (gpx2lv95.py lines 120-158). -/
def build_profile (transform : ℚ → ℚ → ℝ × ℝ) (geodInv : ℚ → ℚ → ℚ → ℚ → ℝ × ℝ)
    (api : ℝ → ℝ → LookupOutcome) (use_height_api : Bool)
    (points : List RawPoint) : List ProfileEntry :=
  build_profile_go transform geodInv api use_height_api none points

/-- The elevation each point of the route resolves to, point by point: the
value `fetch_elevation` computes for it inside `build_profile` (elevation
resolution for a point does not depend on the other points). -/
def resolve_all (transform : ℚ → ℚ → ℝ × ℝ) (api : ℝ → ℝ → LookupOutcome)
    (use_height_api : Bool) (points : List RawPoint) : List ℚ :=
  points.map fun q =>
    let en := transform q.2.1 q.1
    (fetch_elevation q.2.2 en.1 en.2 use_height_api api).1

/-- `sum(max(0.0, p["delta_ele"]) for p in profile[1:])` (gpx2lv95.py
line 190). -/
def total_ascent (profile : List ProfileEntry) : ℚ :=
  ((profile.drop 1).map fun p => max 0 p.delta_ele).sum

/-- `sum(max(0.0, -p["delta_ele"]) for p in profile[1:])` (gpx2lv95.py
line 191). -/
def total_descent (profile : List ProfileEntry) : ℚ :=
  ((profile.drop 1).map fun p => max 0 (-p.delta_ele)).sum

/-- The summary decision of `format_profile` (gpx2lv95.py lines 186-193): the
"Total ascent"/"Total descent" lines are appended iff every entry's `ele` dict
slot is not `None`; `some (a, d)` means the two lines are present with those
values.  The per-point table rows and the "Total distance" line carry no
claim-relevant information beyond this and are not modelled. -/
def format_profile_summary (profile : List ProfileEntry) : Option (ℚ × ℚ) :=
  if profile.all (fun p => p.ele.isSome) then
    some (total_ascent profile, total_descent profile)
  else none

/-- The core processing of `main` (gpx2lv95.py lines 250-256): parse, fail with
`NoPointsFound` on an empty point list, otherwise build the profile and format
the report (abstracted to its ascent/descent summary). -/
def run (transform : ℚ → ℚ → ℝ × ℝ) (geodInv : ℚ → ℚ → ℚ → ℚ → ℝ × ℝ)
    (api : ℝ → ℝ → LookupOutcome) (use_height_api : Bool) (doc : GpxDoc) :
    Except Err (Option (ℚ × ℚ)) :=
  match parse_gpx doc with
  | .error e => .error e
  | .ok [] => .error .NoPointsFound
  | .ok pts =>
    .ok (format_profile_summary (build_profile transform geodInv api use_height_api pts))

/-- Process exit status of `main` (gpx2lv95.py lines 250-269): any raised
exception is caught and turns into `sys.exit(1)`; otherwise the report is
emitted and the process ends with status 0. -/
def main_exit (transform : ℚ → ℚ → ℝ × ℝ) (geodInv : ℚ → ℚ → ℚ → ℚ → ℝ × ℝ)
    (api : ℝ → ℝ → LookupOutcome) (use_height_api : Bool) (doc : GpxDoc) : ℕ :=
  match run transform geodInv api use_height_api doc with
  | .error _ => 1
  | .ok _ => 0

end Lv95

/-- The C99 `atan2(y, x)` that Python's `math.atan2` exposes, over the reals:
the angle of the vector `(x, y)` in `(-pi, pi]`, via `arctan` with the usual
quadrant corrections. -/
noncomputable def atan2 (y x : ℝ) : ℝ :=
  if 0 < x then Real.arctan (y / x)
  else if x < 0 then
    (if 0 ≤ y then Real.arctan (y / x) + Real.pi else Real.arctan (y / x) - Real.pi)
  else if 0 < y then Real.pi / 2
  else if y < 0 then -(Real.pi / 2)
  else 0

/-- Python's `math.degrees`: radians to degrees. -/
noncomputable def degrees (r : ℝ) : ℝ :=
  r * 180 / Real.pi

namespace Kroki

/-- The per-element body of the three extraction loops of `parse_gpx`
(gpx_to_swiss_kroki.py lines 148-183): an element missing `lat` or `lon` is
skipped (`continue`), any other element contributes `(lat, lon, ele)`. -/
def extract (p : PtElem) : Option RawPoint :=
  match p.lat, p.lon with
  | some la, some lo => some (la, lo, p.ele)
  | _, _ => none

/-- Embeds `parse_gpx` (gpx_to_swiss_kroki.py lines 129-185): collect the
well-formed track points; only if that produced nothing, collect the well-formed
route points; only if that still produced nothing, the well-formed waypoints. -/
def parse_gpx (doc : GpxDoc) : List RawPoint :=
  let pts1 := doc.trkpts.filterMap extract
  let pts2 := if pts1.isEmpty then doc.rtepts.filterMap extract else pts1
  if pts2.isEmpty then doc.wpts.filterMap extract else pts2

/-- Embeds `fetch_elevation_swisstopo` (gpx_to_swiss_kroki.py lines 28-50).
The second component of the result records whether the warning was printed to
stderr: the `except` branch prints it, but a 2xx reply whose JSON body merely
lacks the `height` field falls through the `with` block and returns `None`
without printing anything. -/
def fetch_elevation_swisstopo (e n : ℚ) (lookup : ℚ → ℚ → LookupOutcome) :
    Option ℚ × Bool :=
  match lookup e n with
  | .success h => (some h, false)
  | .missingField => (none, false)
  | .failure => (none, true)

/-- Embeds `wgs84_to_lv95` (gpx_to_swiss_kroki.py lines 53-85), the swisstopo
approximation polynomials; exact rational arithmetic. -/
def wgs84_to_lv95 (lat lon : ℚ) : ℚ × ℚ :=
  let lat_aux := (lat * 3600 - 169028.66) / 10000
  let lon_aux := (lon * 3600 - 26782.5) / 10000
  (2600072.37 + 211455.93 * lon_aux - 10938.51 * lon_aux * lat_aux -
      0.36 * lon_aux * lat_aux ^ 2 - 44.54 * lon_aux ^ 3,
    1200147.07 + 308807.95 * lat_aux + 3745.25 * lon_aux ^ 2 + 76.63 * lat_aux ^ 2 -
      194.56 * lon_aux ^ 2 * lat_aux + 119.79 * lat_aux ^ 3)

/-- Embeds `calculate_distance` (gpx_to_swiss_kroki.py lines 88-99). -/
noncomputable def calculate_distance (e1 n1 e2 n2 : ℚ) : ℝ :=
  Real.sqrt (((e2 : ℝ) - e1) ^ 2 + ((n2 : ℝ) - n1) ^ 2)

/-- Embeds `calculate_azimuth` (gpx_to_swiss_kroki.py lines 102-126):
`atan2(delta_e, delta_n)` converted to degrees, then 360 is added when the
result is negative. -/
noncomputable def calculate_azimuth (e1 n1 e2 n2 : ℚ) : ℝ :=
  let azimuth_deg := degrees (atan2 ((e2 : ℝ) - e1) ((n2 : ℝ) - n1))
  if azimuth_deg < 0 then azimuth_deg + 360 else azimuth_deg

/-- Embeds the swiss_points loop of `generate_kroki` (gpx_to_swiss_kroki.py
lines 205-222): project each point, and when its elevation is absent and
fetching is enabled, take whatever `fetch_elevation_swisstopo` returns (possibly
`none`).  The progress prints and the 100 ms rate-limit sleep are side effects
with no bearing on the produced data and are not modelled. -/
def swiss_points (fetch : Bool) (lookup : ℚ → ℚ → LookupOutcome)
    (points : List RawPoint) : List (ℚ × ℚ × Option ℚ) :=
  points.map fun q =>
    let en := wgs84_to_lv95 q.1 q.2.1
    match q.2.2 with
    | some v => (en.1, en.2, some v)
    | none =>
      if fetch then (en.1, en.2, (fetch_elevation_swisstopo en.1 en.2 lookup).1)
      else (en.1, en.2, none)

/-- One table row written by the per-point loop of `generate_kroki`
(gpx_to_swiss_kroki.py lines 237-259): `ele_na` records whether the elevation
column shows the "N/A" marker. -/
structure Row where
  e : ℚ
  n : ℚ
  dist : ℝ
  ele_na : Bool
  delta_ele : ℚ
  azimuth : ℝ

/-- The per-point loop of `generate_kroki` (lines 237-259) with the previous
swiss point made explicit: the first row gets literal zeros for distance,
elevation delta and azimuth; a later row gets the computed distance and
azimuth, and its elevation delta only when both the current and the previous
elevation are known. -/
noncomputable def profile_rows_go :
    Option (ℚ × ℚ × Option ℚ) → List (ℚ × ℚ × Option ℚ) → List Row
  | _, [] => []
  | none, p :: rest =>
    { e := p.1, n := p.2.1, dist := 0, ele_na := p.2.2.isNone, delta_ele := 0,
        azimuth := 0 } :: profile_rows_go (some p) rest
  | some q, p :: rest =>
    { e := p.1, n := p.2.1, dist := calculate_distance q.1 q.2.1 p.1 p.2.1,
        ele_na := !(p.2.2.isSome && q.2.2.isSome),
        delta_ele :=
          match p.2.2, q.2.2 with
          | some a, some b => a - b
          | _, _ => 0,
        azimuth := calculate_azimuth q.1 q.2.1 p.1 p.2.1 } :: profile_rows_go (some p) rest

/-- The rows of the kroki table for a list of swiss points. -/
noncomputable def profile_rows (swiss : List (ℚ × ℚ × Option ℚ)) : List Row :=
  profile_rows_go none swiss

/-- `sum(max(0, pts[i][2] - pts[i-1][2]) for i in range(1, len(pts)))`
(gpx_to_swiss_kroki.py lines 269-270), as a recursion over the elevation
sequence (the guard on line 268 ensures every elevation is a real number when
this sum is evaluated). -/
def total_ascent : List ℚ → ℚ
  | a :: b :: rest => max 0 (b - a) + total_ascent (b :: rest)
  | _ => 0

/-- `sum(max(0, pts[i-1][2] - pts[i][2]) for i in range(1, len(pts)))`
(gpx_to_swiss_kroki.py lines 271-272). -/
def total_descent : List ℚ → ℚ
  | a :: b :: rest => max 0 (a - b) + total_descent (b :: rest)
  | _ => 0

/-- The summary decision of `generate_kroki` (gpx_to_swiss_kroki.py lines
263-277): the "Total Ascent"/"Total Descent" lines are written iff every swiss
point's elevation slot is not `None`; under that guard every slot is `some`,
so the `getD 0` defaults are never taken. -/
def summary (swiss : List (ℚ × ℚ × Option ℚ)) : Option (ℚ × ℚ) :=
  if swiss.all (fun p => p.2.2.isSome) then
    some (total_ascent (swiss.map fun p => p.2.2.getD 0),
      total_descent (swiss.map fun p => p.2.2.getD 0))
  else none

/-- Result of `generate_kroki`: `noPointsMessage` is the branch at lines
200-202 — it prints "Error: No points found in GPX file" to stderr and then
returns normally (a plain `return`, no exception, so `main` sees no error and
the process exits with status 0); `report s` means the full report was emitted,
abstracted to its ascent/descent summary `s`. -/
inductive Outcome where
  | noPointsMessage : Outcome
  | report : Option (ℚ × ℚ) → Outcome
  deriving DecidableEq

/-- Embeds `generate_kroki` (gpx_to_swiss_kroki.py lines 188-289), abstracted
to the claim-relevant observables. -/
def generate_kroki (fetch : Bool) (lookup : ℚ → ℚ → LookupOutcome) (doc : GpxDoc) :
    Outcome :=
  match parse_gpx doc with
  | [] => .noPointsMessage
  | pts => .report (summary (swiss_points fetch lookup pts))

/-- Process exit status of `main` (gpx_to_swiss_kroki.py lines 292-330) for an
already-parsed document: `generate_kroki` raises nothing in either branch, so
the `except` handlers never fire and the process always ends with status 0. -/
def main_exit (fetch : Bool) (lookup : ℚ → ℚ → LookupOutcome) (doc : GpxDoc) : ℕ :=
  match generate_kroki fetch lookup doc with
  | .noPointsMessage => 0
  | .report _ => 0

end Kroki

/-- Modelled from the spec: the fixed-precedence rule "first non-empty set found
under this precedence" — the first of the three lists that is non-empty (used to
compare both parser implementations against the spec wording). -/
def firstNonEmpty {α : Type} (a b c : List α) : List α :=
  if a.isEmpty then (if b.isEmpty then c else b) else a

/-- Every point element of the document carries both a `lat` and a `lon`
attribute. -/
def GpxDoc.allWellFormed (doc : GpxDoc) : Bool :=
  (doc.trkpts ++ doc.rtepts ++ doc.wpts).all fun p => p.lat.isSome && p.lon.isSome

/-- The forward azimuth (first return value) of `GEOD.inv(lon1, lat1, lon2,
lat2)` on the WGS84 ellipsoid, a pyproj library call used by `build_profile`
(gpx2lv95.py line 144).  Modelled as the great-circle initial bearing on the
sphere; pyproj documents the returned azimuths to lie in degrees within
`(-180, 180]`, which this model shares, and for two points on the equator the
ellipsoidal and spherical forward azimuths coincide exactly. -/
noncomputable def geod_inv_azimuth (lon1 lat1 lon2 lat2 : ℚ) : ℝ :=
  let f1 := (lat1 : ℝ) * Real.pi / 180
  let f2 := (lat2 : ℝ) * Real.pi / 180
  let dl := ((lon2 : ℝ) - (lon1 : ℝ)) * Real.pi / 180
  degrees (atan2 (Real.sin dl * Real.cos f2)
    (Real.cos f1 * Real.sin f2 - Real.sin f1 * Real.cos f2 * Real.cos dl))

lemma extractAll_of_wellFormed (l : List PtElem)
    (h : l.all (fun p => p.lat.isSome && p.lon.isSome) = true) :
    Lv95.extractAll l = .ok (l.filterMap Kroki.extract) := by
  induction l with
  | nil => rfl
  | cons p rest ih =>
    simp only [List.all_cons, Bool.and_eq_true] at h
    obtain ⟨⟨hla, hlo⟩, hrest⟩ := h
    obtain ⟨la, hla2⟩ := Option.isSome_iff_exists.mp hla
    obtain ⟨lo, hlo2⟩ := Option.isSome_iff_exists.mp hlo
    simp only [Lv95.extractAll, Lv95.extract, Kroki.extract, List.filterMap_cons, hla2, hlo2,
      ih hrest]

lemma filterMap_extract_ne_nil (p : PtElem) (rest : List PtElem)
    (hla : p.lat.isSome = true) (hlo : p.lon.isSome = true) :
    ((p :: rest).filterMap Kroki.extract).isEmpty = false := by
  obtain ⟨la, hla2⟩ := Option.isSome_iff_exists.mp hla
  obtain ⟨lo, hlo2⟩ := Option.isSome_iff_exists.mp hlo
  simp [List.filterMap_cons, Kroki.extract, hla2, hlo2]

lemma kroki_extract_eq_none {p : PtElem} (h : p.lat = none ∨ p.lon = none) :
    Kroki.extract p = none := by
  obtain ⟨pl, plo, pe⟩ := p
  rcases h with h | h
  · simp only at h; subst h; rfl
  · simp only at h; subst h; cases pl <;> rfl

lemma lv95_extract_error {p : PtElem} (h : p.lat = none ∨ p.lon = none) :
    Lv95.extract p = .error .MalformedInput := by
  obtain ⟨pl, plo, pe⟩ := p
  rcases h with h | h
  · simp only at h; subst h; rfl
  · simp only at h; subst h; cases pl <;> rfl

lemma extractAll_error_of_mem {l : List PtElem} {p : PtElem} (hp : p ∈ l)
    (h : p.lat = none ∨ p.lon = none) :
    Lv95.extractAll l = .error .MalformedInput := by
  induction l with
  | nil => cases hp
  | cons a rest ih =>
    rcases List.mem_cons.mp hp with rfl | hmem
    · simp only [Lv95.extractAll, lv95_extract_error h]
    · simp only [Lv95.extractAll]
      cases ha : Lv95.extract a with
      | error e =>
        have he : e = .MalformedInput := by
          obtain ⟨al, alo, ae⟩ := a
          cases al <;> cases alo <;> simp [Lv95.extract] at ha <;> exact ha.symm
        rw [he]
      | ok q => rw [ih hmem]

lemma max_sub_max_neg (x : ℚ) : max 0 x - max 0 (-x) = x := by
  rcases le_total 0 x with h | h
  · rw [max_eq_right h, max_eq_left (neg_nonpos.mpr h), sub_zero]
  · rw [max_eq_left h, max_eq_right (neg_nonneg.mpr h)]
    ring

lemma kroki_ascent_sub_descent (a : ℚ) (rest : List ℚ) :
    Kroki.total_ascent (a :: rest) - Kroki.total_descent (a :: rest) =
      (a :: rest).getLast?.getD 0 - a := by
  induction rest generalizing a with
  | nil => simp [Kroki.total_ascent, Kroki.total_descent]
  | cons b rs ih =>
    have h := ih b
    have hm := max_sub_max_neg (b - a)
    rw [List.getLast?_cons_cons]
    simp only [Kroki.total_ascent, Kroki.total_descent] at *
    have hn : a - b = -(b - a) := by ring
    rw [hn]
    linarith

lemma build_go_map_ascent (t : ℚ → ℚ → ℝ × ℝ) (g : ℚ → ℚ → ℚ → ℚ → ℝ × ℝ)
    (api : ℝ → ℝ → LookupOutcome) (u : Bool) :
    ∀ (pts : List RawPoint) (plat plon pele : ℚ),
    ((Lv95.build_profile_go t g api u (some (plat, plon, pele)) pts).map
        (fun p => max 0 p.delta_ele)).sum =
      Kroki.total_ascent (pele :: Lv95.resolve_all t api u pts) := by
  intro pts
  induction pts with
  | nil => intro plat plon pele; rfl
  | cons q rest ih =>
    intro plat plon pele
    simp only [Lv95.build_profile_go, Lv95.resolve_all, List.map_cons, List.sum_cons,
      Kroki.total_ascent]
    rw [ih]
    simp only [Lv95.resolve_all, Kroki.total_ascent]

lemma build_go_map_descent (t : ℚ → ℚ → ℝ × ℝ) (g : ℚ → ℚ → ℚ → ℚ → ℝ × ℝ)
    (api : ℝ → ℝ → LookupOutcome) (u : Bool) :
    ∀ (pts : List RawPoint) (plat plon pele : ℚ),
    ((Lv95.build_profile_go t g api u (some (plat, plon, pele)) pts).map
        (fun p => max 0 (-p.delta_ele))).sum =
      Kroki.total_descent (pele :: Lv95.resolve_all t api u pts) := by
  intro pts
  induction pts with
  | nil => intro plat plon pele; rfl
  | cons q rest ih =>
    intro plat plon pele
    simp only [Lv95.build_profile_go, Lv95.resolve_all, List.map_cons, List.sum_cons,
      Kroki.total_descent]
    rw [ih]
    have hn : ∀ x y : ℚ, max 0 (-(x - y)) = max 0 (y - x) := by
      intro x y
      rw [neg_sub]
    rw [hn]
    simp only [Lv95.resolve_all, Kroki.total_descent]

lemma atan2_bounds (y x : ℝ) : -Real.pi < atan2 y x ∧ atan2 y x ≤ Real.pi := by
  have hpi := Real.pi_pos
  have h1 := Real.arctan_lt_pi_div_two (y / x)
  have h2 := Real.neg_pi_div_two_lt_arctan (y / x)
  unfold atan2
  split_ifs with hx hx2 hy hy2 hy3
  · constructor <;> linarith
  · have hyx : y / x ≤ 0 := div_nonpos_of_nonneg_of_nonpos hy (le_of_lt hx2)
    have h3 : Real.arctan (y / x) ≤ 0 := by
      rw [← Real.arctan_zero]
      exact Real.arctan_strictMono.monotone hyx
    constructor <;> linarith
  · have hyx : 0 < y / x := div_pos_of_neg_of_neg (lt_of_not_le hy) hx2
    have h3 : 0 < Real.arctan (y / x) := by
      rw [← Real.arctan_zero]
      exact Real.arctan_strictMono hyx
    constructor <;> linarith
  · constructor <;> linarith
  · constructor <;> linarith
  · constructor <;> linarith

lemma degrees_bounds {r : ℝ} (h1 : -Real.pi < r) (h2 : r ≤ Real.pi) :
    -180 < degrees r ∧ degrees r ≤ 180 := by
  have hpi := Real.pi_pos
  unfold degrees
  constructor
  · rw [lt_div_iff₀ hpi]
    nlinarith
  · rw [div_le_iff₀ hpi]
    nlinarith

lemma calculate_azimuth_bounds (e1 n1 e2 n2 : ℚ) :
    0 ≤ Kroki.calculate_azimuth e1 n1 e2 n2 ∧ Kroki.calculate_azimuth e1 n1 e2 n2 < 360 := by
  obtain ⟨hb1, hb2⟩ := atan2_bounds ((e2 : ℝ) - e1) ((n2 : ℝ) - n1)
  obtain ⟨hd1, hd2⟩ := degrees_bounds hb1 hb2
  simp only [Kroki.calculate_azimuth]
  split_ifs with h
  · constructor <;> linarith
  · constructor <;> linarith

lemma geod_inv_azimuth_bounds (lon1 lat1 lon2 lat2 : ℚ) :
    -180 < geod_inv_azimuth lon1 lat1 lon2 lat2 ∧
      geod_inv_azimuth lon1 lat1 lon2 lat2 ≤ 180 := by
  simp only [geod_inv_azimuth]
  exact degrees_bounds (atan2_bounds _ _).1 (atan2_bounds _ _).2

lemma atan2_neg_one_zero : atan2 (-1) 0 = -(Real.pi / 2) := by
  unfold atan2
  rw [if_neg (lt_irrefl 0), if_neg (lt_irrefl 0),
    if_neg (by norm_num : ¬(0 : ℝ) < -1), if_pos (by norm_num : (-1 : ℝ) < 0)]

lemma geod_inv_azimuth_west : geod_inv_azimuth 90 0 0 0 = -90 := by
  simp only [geod_inv_azimuth]
  have e1 : ((0 : ℚ) : ℝ) * Real.pi / 180 = 0 := by norm_num
  have e2 : (((0 : ℚ) : ℝ) - ((90 : ℚ) : ℝ)) * Real.pi / 180 = -(Real.pi / 2) := by
    push_cast
    ring
  rw [e1, e2, Real.sin_neg, Real.sin_pi_div_two, Real.cos_zero, Real.sin_zero]
  have e3 : (-1 : ℝ) * 1 = -1 := by norm_num
  have e4 : (1 : ℝ) * 0 - 0 * 1 * Real.cos (-(Real.pi / 2)) = 0 := by ring
  rw [e3, e4, atan2_neg_one_zero]
  unfold degrees
  field_simp
  ring

/-- Claim C1 (code bug, evaluated at the failing input): a route with a single
track point whose elevation is absent, converted with lookup disabled, resolves
that elevation to the sentinel 0.0 in `gpx2lv95.py`; `format_profile`
nevertheless emits the "Total ascent"/"Total descent" lines (summary
`some (0, 0)`), computing them with the sentinel treated as real elevation,
because `build_profile` never stores `None` and the `ele is not None` guard is
vacuous.  On the same input `gpx_to_swiss_kroki.py` keeps the elevation `None`
and omits both lines (summary `none`), as the claim demands. -/
theorem c1_sentinel_ascent_eval :
    Lv95.run (fun lo la => ((lo : ℝ), (la : ℝ))) (fun _ _ _ _ => (0, 0))
        (fun _ _ => .failure) false (GpxDoc.mk [PtElem.mk (some 1) (some 1) none] [] []) =
      .ok (some (0, 0)) ∧
    Kroki.generate_kroki false (fun _ _ => .failure)
        (GpxDoc.mk [PtElem.mk (some 1) (some 1) none] [] []) = .report none :=
  ⟨rfl, rfl⟩

/-- Claim C2, counterexample to the claim as stated: for the route that runs
due west along the equator, the azimuth stored in the `gpx2lv95.py` profile for
the second point is the forward azimuth returned by `GEOD.inv`, which is -90
degrees — `build_profile` performs no normalisation, so the reported azimuth is
not in [0, 360). -/
theorem c2_counterexample :
    ((Lv95.build_profile (fun lo la => ((lo : ℝ), (la : ℝ)))
        (fun lon1 lat1 lon2 lat2 => (geod_inv_azimuth lon1 lat1 lon2 lat2, 0))
        (fun _ _ => .failure) false [(0, 90, some 0), (0, 0, some 0)]).map
      (fun p => p.azimuth)) = [0, -90] ∧ ¬(0 : ℝ) ≤ -90 := by
  constructor
  · have h : ((Lv95.build_profile (fun lo la => ((lo : ℝ), (la : ℝ)))
        (fun lon1 lat1 lon2 lat2 => (geod_inv_azimuth lon1 lat1 lon2 lat2, 0))
        (fun _ _ => .failure) false [(0, 90, some 0), (0, 0, some 0)]).map
      (fun p => p.azimuth)) = [0, geod_inv_azimuth 90 0 0 0] := rfl
    rw [h, geod_inv_azimuth_west]
  · norm_num

/-- Claim C2 as amended: the azimuth computed by `calculate_azimuth` in
`gpx_to_swiss_kroki.py` — the value every kroki table row after the first
reports (the first row reports the in-range constant 0) — always lies in
[0, 360); the azimuth the `gpx2lv95.py` profile reports is the `GEOD.inv`
forward azimuth, which lies in (-180, 180] and can be negative. -/
theorem c2_azimuth_range_amended :
    (∀ e1 n1 e2 n2 : ℚ, 0 ≤ Kroki.calculate_azimuth e1 n1 e2 n2 ∧
      Kroki.calculate_azimuth e1 n1 e2 n2 < 360) ∧
    (∀ lon1 lat1 lon2 lat2 : ℚ, -180 < geod_inv_azimuth lon1 lat1 lon2 lat2 ∧
      geod_inv_azimuth lon1 lat1 lon2 lat2 ≤ 180) :=
  ⟨fun e1 n1 e2 n2 => calculate_azimuth_bounds e1 n1 e2 n2,
    fun lon1 lat1 lon2 lat2 => geod_inv_azimuth_bounds lon1 lat1 lon2 lat2⟩

/-- Claim C3: point extraction follows the fixed precedence track points, then
route points, then individual waypoints, and returns the first non-empty
category found; later categories are never merged in.  In
`gpx_to_swiss_kroki.py` a category "yields" its well-formed points and the
first category yielding at least one point wins; in `gpx2lv95.py` the
precedence is decided on the raw element lists and the chosen category alone is
extracted. -/
theorem c3_precedence (doc : GpxDoc) :
    Kroki.parse_gpx doc =
      firstNonEmpty (doc.trkpts.filterMap Kroki.extract)
        (doc.rtepts.filterMap Kroki.extract) (doc.wpts.filterMap Kroki.extract) ∧
    Lv95.parse_gpx doc =
      Lv95.extractAll (firstNonEmpty doc.trkpts doc.rtepts doc.wpts) := by
  constructor
  · unfold Kroki.parse_gpx firstNonEmpty
    cases h : (doc.trkpts.filterMap Kroki.extract).isEmpty <;> simp [h]
  · rfl

/-- Claim C4 as amended: elevation resolution returns the input elevation
unchanged whenever it is present, without consulting the lookup service (the
result does not depend on the lookup outcomes at all); when the elevation is
absent and lookup is disabled, `gpx2lv95.fetch_elevation` returns the sentinel
0.0 without warning and without failing, while `gpx_to_swiss_kroki` leaves the
elevation absent (`None`) rather than substituting 0.0 — also without failing
(both resolvers are total functions). -/
theorem c4_resolution_amended :
    (∀ (v : ℚ) (e n : ℝ) (u : Bool) (api api2 : ℝ → ℝ → LookupOutcome),
      Lv95.fetch_elevation (some v) e n u api = (v, false) ∧
      Lv95.fetch_elevation (some v) e n u api =
        Lv95.fetch_elevation (some v) e n u api2) ∧
    (∀ (e n : ℝ) (api : ℝ → ℝ → LookupOutcome),
      Lv95.fetch_elevation none e n false api = (0, false)) ∧
    (∀ (lat lon v : ℚ) (f : Bool) (lk lk2 : ℚ → ℚ → LookupOutcome),
      Kroki.swiss_points f lk [(lat, lon, some v)] =
        [((Kroki.wgs84_to_lv95 lat lon).1, (Kroki.wgs84_to_lv95 lat lon).2, some v)] ∧
      Kroki.swiss_points f lk [(lat, lon, some v)] =
        Kroki.swiss_points f lk2 [(lat, lon, some v)]) ∧
    (∀ (lat lon : ℚ) (lk : ℚ → ℚ → LookupOutcome),
      Kroki.swiss_points false lk [(lat, lon, none)] =
        [((Kroki.wgs84_to_lv95 lat lon).1, (Kroki.wgs84_to_lv95 lat lon).2, none)]) :=
  ⟨fun _ _ _ _ _ _ => ⟨rfl, rfl⟩, fun _ _ _ => rfl,
    fun _ _ _ _ _ _ => ⟨rfl, rfl⟩, fun _ _ _ => rfl⟩

/-- Counterexample for C4 as stated: in `gpx_to_swiss_kroki.py` a point whose
elevation is absent, with lookup disabled, keeps elevation `None` — it is not
resolved to the claimed sentinel 0.0 (the lookup outcome here would even
succeed, but is never consulted). -/
theorem c4_counterexample :
    (Kroki.swiss_points false (fun _ _ => .success 7) [(5, 6, none)]).map
        (fun p => p.2.2) = [none] ∧
    ([none] : List (Option ℚ)) ≠ [some 0] :=
  ⟨rfl, by decide⟩

/-- Claim C5 as amended: the resolvers never propagate a lookup failure, and
whether a conversion succeeds never depends on the lookup outcomes.  In
`gpx2lv95.py` every failure kind (exception or missing `height` field) logs a
warning and resolves to the sentinel 0.0.  In `gpx_to_swiss_kroki.py` an
exception-style failure prints a warning and resolves to `None`, but a
well-formed reply lacking the `height` field resolves to `None` silently, with
no warning. -/
theorem c5_lookup_failure_amended :
    (∀ (e n : ℝ),
      Lv95.fetch_elevation none e n true (fun _ _ => .failure) = (0, true) ∧
      Lv95.fetch_elevation none e n true (fun _ _ => .missingField) = (0, true)) ∧
    (∀ (e n : ℚ) (h : ℚ),
      Kroki.fetch_elevation_swisstopo e n (fun _ _ => .failure) = (none, true) ∧
      Kroki.fetch_elevation_swisstopo e n (fun _ _ => .missingField) = (none, false) ∧
      Kroki.fetch_elevation_swisstopo e n (fun _ _ => .success h) = (some h, false)) ∧
    (∀ (t : ℚ → ℚ → ℝ × ℝ) (g : ℚ → ℚ → ℚ → ℚ → ℝ × ℝ) (u : Bool) (doc : GpxDoc)
      (api api2 : ℝ → ℝ → LookupOutcome) (f : Bool) (lk lk2 : ℚ → ℚ → LookupOutcome),
      ((∃ e, Lv95.run t g api u doc = .error e) ↔
        (∃ e, Lv95.run t g api2 u doc = .error e)) ∧
      (Kroki.generate_kroki f lk doc = .noPointsMessage ↔
        Kroki.generate_kroki f lk2 doc = .noPointsMessage)) := by
  refine ⟨fun _ _ => ⟨rfl, rfl⟩, fun _ _ _ => ⟨rfl, rfl, rfl⟩, ?_⟩
  intro t g u doc api api2 f lk lk2
  constructor
  · unfold Lv95.run
    cases hP : Lv95.parse_gpx doc with
    | error e => simp
    | ok pts => cases pts <;> simp
  · unfold Kroki.generate_kroki
    cases hP : Kroki.parse_gpx doc with
    | nil => simp
    | cons q rest => simp

/-- Counterexample for C5 as stated: in `gpx_to_swiss_kroki.py`, when the
lookup reply is well-formed but lacks the `height` field, no warning is
emitted (second component `false`), contradicting "logs a warning ... for every
lookup failure (... missing field)". -/
theorem c5_counterexample :
    Kroki.fetch_elevation_swisstopo 8 9 (fun _ _ => .missingField) = (none, false) ∧
    (false : Bool) ≠ true :=
  ⟨rfl, by decide⟩

/-- Claim C6 as amended: on a document whose three categories are all empty,
`gpx2lv95.py` raises (ValueError, modelled as `NoPointsFound`), aborts with
exit status 1 and produces no report; `gpx_to_swiss_kroki.py` prints an error
message to stderr but returns normally — no exception reaches its caller and
the process exits with status 0 — likewise producing no report. -/
theorem c6_no_points_amended (t : ℚ → ℚ → ℝ × ℝ) (g : ℚ → ℚ → ℚ → ℚ → ℝ × ℝ)
    (api : ℝ → ℝ → LookupOutcome) (u : Bool) (f : Bool) (lk : ℚ → ℚ → LookupOutcome)
    (doc : GpxDoc) (h1 : doc.trkpts = []) (h2 : doc.rtepts = []) (h3 : doc.wpts = []) :
    Lv95.run t g api u doc = .error .NoPointsFound ∧
    Lv95.main_exit t g api u doc = 1 ∧
    Kroki.generate_kroki f lk doc = .noPointsMessage ∧
    Kroki.main_exit f lk doc = 0 := by
  obtain ⟨a, b, c⟩ := doc
  dsimp only at h1 h2 h3
  subst h1; subst h2; subst h3
  exact ⟨rfl, rfl, rfl, rfl⟩

/-- Witness for C6 as amended, at the concrete all-empty document. -/
theorem c6_no_points_amended_witness :
    Lv95.run (fun _ _ => ((0 : ℝ), (0 : ℝ))) (fun _ _ _ _ => ((0 : ℝ), (0 : ℝ)))
        (fun _ _ => .failure) true (GpxDoc.mk [] [] []) = .error .NoPointsFound ∧
    Lv95.main_exit (fun _ _ => ((0 : ℝ), (0 : ℝ))) (fun _ _ _ _ => ((0 : ℝ), (0 : ℝ)))
        (fun _ _ => .failure) true (GpxDoc.mk [] [] []) = 1 ∧
    Kroki.generate_kroki true (fun _ _ => .success 3) (GpxDoc.mk [] [] []) =
      .noPointsMessage ∧
    Kroki.main_exit true (fun _ _ => .success 3) (GpxDoc.mk [] [] []) = 0 :=
  c6_no_points_amended _ _ _ _ _ _ _ rfl rfl rfl

/-- Counterexample for C6 as stated: on the empty document
`gpx_to_swiss_kroki.py` does not fail — `generate_kroki` takes the normal
`return` branch (`noPointsMessage`) and the process exit status is 0, so the
failure is neither surfaced to the caller as an error nor does the run abort
with a failure status. -/
theorem c6_counterexample :
    Kroki.generate_kroki true (fun _ _ => .success 5) (GpxDoc.mk [] [] []) =
      .noPointsMessage ∧
    Kroki.main_exit true (fun _ _ => .success 5) (GpxDoc.mk [] [] []) = 0 :=
  ⟨rfl, rfl⟩

/-- Claim C7 as amended: in `gpx_to_swiss_kroki.py` a point element missing its
`lat` or `lon` attribute is silently skipped — removing it from the track list
does not change the parse result at all, and no error of any kind is raised; in
`gpx2lv95.py` a malformed point in the selected category aborts the whole parse
with an error (the TypeError modelled as `MalformedInput`) — nothing is
skipped. -/
theorem c7_malformed_amended :
    (∀ (doc : GpxDoc) (p : PtElem) (pre post : List PtElem),
      (p.lat = none ∨ p.lon = none) → doc.trkpts = pre ++ p :: post →
      Kroki.parse_gpx doc = Kroki.parse_gpx (GpxDoc.mk (pre ++ post) doc.rtepts doc.wpts)) ∧
    (∀ (doc : GpxDoc) (p : PtElem), p ∈ doc.trkpts → (p.lat = none ∨ p.lon = none) →
      Lv95.parse_gpx doc = .error .MalformedInput) := by
  constructor
  · intro doc p pre post hbad hsplit
    have hnone := kroki_extract_eq_none hbad
    have hfm : doc.trkpts.filterMap Kroki.extract =
        (pre ++ post).filterMap Kroki.extract := by
      rw [hsplit]
      simp [List.filterMap_append, List.filterMap_cons, hnone]
    simp only [Kroki.parse_gpx, hfm]
  · intro doc p hp hbad
    unfold Lv95.parse_gpx
    cases hT : doc.trkpts with
    | nil => rw [hT] at hp; cases hp
    | cons a rest =>
      simp only [List.isEmpty_cons, Bool.false_eq_true, if_false]
      exact extractAll_error_of_mem (hT ▸ hp) hbad

/-- Witness for C7 as amended, at concrete documents: skipping the malformed
track point leaves the kroki parse unchanged, and the same document makes the
gpx2lv95 parse abort. -/
theorem c7_malformed_amended_witness :
    Kroki.parse_gpx
        (GpxDoc.mk [PtElem.mk none (some 4) none] [PtElem.mk (some 5) (some 6) none] []) =
      Kroki.parse_gpx (GpxDoc.mk [] [PtElem.mk (some 5) (some 6) none] []) ∧
    Lv95.parse_gpx
        (GpxDoc.mk [PtElem.mk none (some 4) none] [PtElem.mk (some 5) (some 6) none] []) =
      .error .MalformedInput :=
  ⟨c7_malformed_amended.1 _ (PtElem.mk none (some 4) none) [] [] (Or.inl rfl) rfl,
    c7_malformed_amended.2 _ (PtElem.mk none (some 4) none) (by simp) (Or.inl rfl)⟩

/-- Counterexample for C7 as stated: a document whose only track point lacks
`lat` and whose route list has one well-formed point.  `gpx_to_swiss_kroki.py`
raises no `MalformedInputError` at all — the malformed point is skipped
silently, and because of it the whole track category is skipped in favour of
the route category; `gpx2lv95.py` aborts the entire parse instead of skipping
the single point. -/
theorem c7_counterexample :
    Kroki.parse_gpx
        (GpxDoc.mk [PtElem.mk none (some 1) none] [PtElem.mk (some 2) (some 3) none] []) =
      [(2, 3, none)] ∧
    Lv95.parse_gpx
        (GpxDoc.mk [PtElem.mk none (some 1) none] [PtElem.mk (some 2) (some 3) none] []) =
      .error .MalformedInput :=
  ⟨rfl, rfl⟩

/-- Claim C8: for every non-empty route, the first profile entry of
`gpx2lv95.build_profile` and the first table row of `gpx_to_swiss_kroki`
report distance 0, elevation delta 0 and azimuth 0, by the first-point
convention in both loops. -/
theorem c8_first_entry :
    (∀ (t : ℚ → ℚ → ℝ × ℝ) (g : ℚ → ℚ → ℚ → ℚ → ℝ × ℝ) (api : ℝ → ℝ → LookupOutcome)
      (u : Bool) (q : RawPoint) (rest : List RawPoint),
      (Lv95.build_profile t g api u (q :: rest)).head?.map
          (fun p => (p.dist, p.delta_ele, p.azimuth)) = some (0, 0, 0)) ∧
    (∀ (q : ℚ × ℚ × Option ℚ) (rest : List (ℚ × ℚ × Option ℚ)),
      (Kroki.profile_rows (q :: rest)).head?.map
          (fun r => (r.dist, r.delta_ele, r.azimuth)) = some (0, 0, 0)) :=
  ⟨fun _ _ _ _ _ _ => rfl, fun _ _ => rfl⟩

/-- Claim C9: the per-segment positive and negative elevation deltas telescope:
total ascent minus total descent equals the last resolved elevation minus the
first.  Stated for the totals of `gpx_to_swiss_kroki.generate_kroki` over any
(non-empty) fully resolved elevation sequence, and for the
`format_profile` totals over any non-empty route, whose resolved elevations
are `Lv95.resolve_all`. -/
theorem c9_telescoping :
    (∀ (a : ℚ) (rest : List ℚ),
      Kroki.total_ascent (a :: rest) - Kroki.total_descent (a :: rest) =
        (a :: rest).getLast?.getD 0 - a) ∧
    (∀ (t : ℚ → ℚ → ℝ × ℝ) (g : ℚ → ℚ → ℚ → ℚ → ℝ × ℝ) (api : ℝ → ℝ → LookupOutcome)
      (u : Bool) (q : RawPoint) (rest : List RawPoint),
      Lv95.total_ascent (Lv95.build_profile t g api u (q :: rest)) -
          Lv95.total_descent (Lv95.build_profile t g api u (q :: rest)) =
        (Lv95.resolve_all t api u (q :: rest)).getLast?.getD 0 -
          (Lv95.resolve_all t api u (q :: rest)).head?.getD 0) := by
  constructor
  · exact kroki_ascent_sub_descent
  · intro t g api u q rest
    have hA : Lv95.total_ascent (Lv95.build_profile t g api u (q :: rest)) =
        ((Lv95.build_profile_go t g api u
          (some (q.1, q.2.1,
            (Lv95.fetch_elevation q.2.2 (t q.2.1 q.1).1 (t q.2.1 q.1).2 u api).1)) rest).map
          (fun p => max 0 p.delta_ele)).sum := rfl
    have hD : Lv95.total_descent (Lv95.build_profile t g api u (q :: rest)) =
        ((Lv95.build_profile_go t g api u
          (some (q.1, q.2.1,
            (Lv95.fetch_elevation q.2.2 (t q.2.1 q.1).1 (t q.2.1 q.1).2 u api).1)) rest).map
          (fun p => max 0 (-p.delta_ele))).sum := rfl
    have hres : Lv95.resolve_all t api u (q :: rest) =
        (Lv95.fetch_elevation q.2.2 (t q.2.1 q.1).1 (t q.2.1 q.1).2 u api).1 ::
          Lv95.resolve_all t api u rest := rfl
    rw [hA, hD, build_go_map_ascent, build_go_map_descent, kroki_ascent_sub_descent, hres,
      List.head?_cons, Option.getD_some]

/-- Claim C10: on a document in which every point element carries both `lat`
and `lon`, the two extractor implementations agree: `gpx2lv95.parse_gpx`
succeeds and returns exactly the list `gpx_to_swiss_kroki.parse_gpx` returns,
same triples in the same order. -/
theorem c10_parse_agreement (doc : GpxDoc) (h : doc.allWellFormed = true) :
    Lv95.parse_gpx doc = .ok (Kroki.parse_gpx doc) := by
  unfold GpxDoc.allWellFormed at h
  simp only [List.all_append, Bool.and_eq_true] at h
  obtain ⟨⟨htrk, hrte⟩, hwpt⟩ := h
  unfold Lv95.parse_gpx Kroki.parse_gpx
  cases h1 : doc.trkpts with
  | cons p rest =>
    rw [h1] at htrk
    simp only [List.all_cons, Bool.and_eq_true] at htrk
    have hne := filterMap_extract_ne_nil p rest htrk.1.1 htrk.1.2
    simp only [List.isEmpty_cons, Bool.false_eq_true, if_false, hne]
    exact extractAll_of_wellFormed _ (by simp [List.all_cons, htrk.1.1, htrk.1.2, htrk.2])
  | nil =>
    simp only [List.isEmpty_nil, if_true, List.filterMap_nil]
    cases h2 : doc.rtepts with
    | cons p rest =>
      rw [h2] at hrte
      simp only [List.all_cons, Bool.and_eq_true] at hrte
      have hne := filterMap_extract_ne_nil p rest hrte.1.1 hrte.1.2
      simp only [List.isEmpty_cons, Bool.false_eq_true, if_false, hne]
      exact extractAll_of_wellFormed _ (by simp [List.all_cons, hrte.1.1, hrte.1.2, hrte.2])
    | nil =>
      simp only [List.isEmpty_nil, if_true, List.filterMap_nil]
      exact extractAll_of_wellFormed _ hwpt

/-- Witness for C10: a concrete well-formed document on which both parsers
agree, with the hypothesis discharged by evaluation. -/
theorem c10_parse_agreement_witness :
    (GpxDoc.mk [PtElem.mk (some 47) (some 8) (some 600)] [] []).allWellFormed = true ∧
    Lv95.parse_gpx (GpxDoc.mk [PtElem.mk (some 47) (some 8) (some 600)] [] []) =
      .ok (Kroki.parse_gpx (GpxDoc.mk [PtElem.mk (some 47) (some 8) (some 600)] [] [])) :=
  ⟨rfl, c10_parse_agreement _ rfl⟩
